import Mathlib

/-!
A verification development for the license activation & validation engine of
the eyesee/vcomm Electron applications.  JavaScript strings are modelled as
`List Char`; JS numbers holding epoch-millisecond timestamps as `Int`;
machine words inside SHA-256 as `Nat` reduced mod 2^32.  Fallible operations
return `Option`/`Except`.  Two product variants coexist in the source and are
both embedded: the pre-binding EyeSee variant (6-segment keys, local expiry,
clock-manipulation detection) and the post-binding VComm variant (4-segment
keys, server-based validation with an offline-tolerance cache).
-/

/-- JavaScript strings, modelled as their character sequences. -/
abbrev Str := List Char

/-- Whitespace recognised by `String.prototype.trim` (ASCII subset). -/
def isSpaceChar (c : Char) : Bool :=
  c = ' ' || c = '\t' || c = '\n' || c = '\r'

/-- `s.trim()`: strip whitespace from both ends. -/
def jsTrim (s : Str) : Str :=
  ((s.dropWhile isSpaceChar).reverse.dropWhile isSpaceChar).reverse

/-- `s.toUpperCase()` on the ASCII range. -/
def jsToUpper (s : Str) : Str := s.map Char.toUpper

/-- JavaScript `a || b` on optional numbers: `null`/`undefined` and `0` are
falsy and fall through to the default. -/
def jsOrNat (v : Option Nat) (d : Nat) : Nat :=
  match v with
  | none => d
  | some n => if n = 0 then d else n

-- ============================================================================
-- SHA-256 and HMAC-SHA256 (Node's crypto.createHmac('sha256', key)), FIPS
-- 180-4, over byte sequences modelled as `List Nat` with entries < 256.
-- ============================================================================

namespace Sha2

/-- Reduce to a 32-bit word. -/
def w32 (n : Nat) : Nat := n % 4294967296

def rotr (k x : Nat) : Nat := w32 ((x >>> k) ||| (x <<< (32 - k)))

def shr (k x : Nat) : Nat := x >>> k

def ch (x y z : Nat) : Nat := (x &&& y) ^^^ ((x ^^^ 4294967295) &&& z)

def maj (x y z : Nat) : Nat := (x &&& y) ^^^ (x &&& z) ^^^ (y &&& z)

def bigSigma0 (x : Nat) : Nat := rotr 2 x ^^^ rotr 13 x ^^^ rotr 22 x

def bigSigma1 (x : Nat) : Nat := rotr 6 x ^^^ rotr 11 x ^^^ rotr 25 x

def smallSigma0 (x : Nat) : Nat := rotr 7 x ^^^ rotr 18 x ^^^ shr 3 x

def smallSigma1 (x : Nat) : Nat := rotr 17 x ^^^ rotr 19 x ^^^ shr 10 x

/-- The 64 SHA-256 round constants, written in decimal. -/
def K : List Nat :=
  [1116352408, 1899447441, 3049323471, 3921009573, 961987163,
   1508970993, 2453635748, 2870763221, 3624381080, 310598401,
   607225278, 1426881987, 1925078388, 2162078206, 2614888103,
   3248222580, 3835390401, 4022224774, 264347078, 604807628,
   770255983, 1249150122, 1555081692, 1996064986, 2554220882,
   2821834349, 2952996808, 3210313671, 3336571891, 3584528711,
   113926993, 338241895, 666307205, 773529912, 1294757372,
   1396182291, 1695183700, 1986661051, 2177026350, 2456956037,
   2730485921, 2820302411, 3259730800, 3345764771, 3516065817,
   3600352804, 4094571909, 275423344, 430227734, 506948616,
   659060556, 883997877, 958139571, 1322822218, 1537002063,
   1747873779, 1955562222, 2024104815, 2227730452, 2361852424,
   2428436474, 2756734187, 3204031479, 3329325298]

/-- The eight SHA-256 initial hash words, written in decimal. -/
def H0 : List Nat :=
  [1779033703, 3144134277, 1013904242, 2773480762,
   1359893119, 2600822924, 528734635, 1541459225]

/-- `k` big-endian bytes of `n`. -/
def beBytes (k n : Nat) : List Nat :=
  (List.range k).map (fun i => (n >>> (8 * (k - 1 - i))) % 256)

/-- FIPS padding: append 0x80, zero bytes to 56 mod 64, then the 64-bit
big-endian bit length. -/
def padMessage (m : List Nat) : List Nat :=
  let L := m.length
  let z := (119 - (L % 64)) % 64
  m ++ [128] ++ List.replicate z 0 ++ beBytes 8 (L * 8)

/-- Take `k` successive 64-byte blocks from a byte sequence. -/
def chunksN : Nat → List Nat → List (List Nat)
  | 0, _ => []
  | k + 1, l => l.take 64 :: chunksN k (l.drop 64)

/-- Split a (padded, 64-divisible) byte sequence into its 64-byte blocks. -/
def chunks (l : List Nat) : List (List Nat) :=
  chunksN (l.length / 64) l

/-- Pack bytes into big-endian 32-bit words. -/
def toWords : List Nat → List Nat
  | b0 :: b1 :: b2 :: b3 :: rest =>
      (((b0 * 256 + b1) * 256 + b2) * 256 + b3) :: toWords rest
  | _ => []

/-- Extend the 16-word schedule with `k` more words. -/
def extendLoop : Nat → List Nat → List Nat
  | 0, acc => acc
  | k + 1, acc =>
      let n := acc.length
      let w := w32 (smallSigma1 (acc.getD (n - 2) 0) + acc.getD (n - 7) 0 +
                    smallSigma0 (acc.getD (n - 15) 0) + acc.getD (n - 16) 0)
      extendLoop k (acc ++ [w])

def extendW (ws : List Nat) : List Nat := extendLoop 48 ws

/-- One round of the compression function on state `[a,b,c,d,e,f,g,h]`. -/
def compressStep (st : List Nat) (kw : Nat × Nat) : List Nat :=
  match st with
  | [a, b, c, d, e, f, g, h] =>
      let t1 := w32 (h + bigSigma1 e + ch e f g + kw.1 + kw.2)
      let t2 := w32 (bigSigma0 a + maj a b c)
      [w32 (t1 + t2), a, b, c, w32 (d + t1), e, f, g]
  | _ => st

/-- Process one 64-byte block. -/
def compressBlock (h : List Nat) (block : List Nat) : List Nat :=
  let ws := extendW (toWords block)
  let st := (K.zip ws).foldl compressStep h
  (h.zip st).map (fun p => w32 (p.1 + p.2))

/-- SHA-256 digest (32 bytes) of a byte sequence. -/
def sha256 (m : List Nat) : List Nat :=
  (((chunks (padMessage m)).foldl compressBlock H0).map (beBytes 4)).flatten

/-- HMAC-SHA256 with block size 64. -/
def hmacSha256 (key msg : List Nat) : List Nat :=
  let k0 := if key.length > 64 then sha256 key else key
  let kpad := k0 ++ List.replicate (64 - k0.length) 0
  let ipadded := kpad.map (fun b => b ^^^ 54)
  let opadded := kpad.map (fun b => b ^^^ 92)
  sha256 (opadded ++ sha256 (ipadded ++ msg))

end Sha2

/-- ASCII/UTF-8 bytes of a string (all strings fed to the HMAC are ASCII). -/
def strBytes (s : Str) : List Nat := s.map Char.toNat

/-- Lowercase hex digit, as produced by `digest('hex')`. -/
def hexDigit (n : Nat) : Char := ("0123456789abcdef").data.getD n '0'

/-- Hex encoding of a byte sequence. -/
def toHex (bytes : List Nat) : Str :=
  (bytes.map (fun b => [hexDigit (b / 16), hexDigit (b % 16)])).flatten

/-- Numeric value of a hex digit (as consumed by `parseInt(s, 16)` on a
well-formed hex string). -/
def hexVal (c : Char) : Nat :=
  if '0' ≤ c && c ≤ '9' then c.toNat - 48
  else if 'a' ≤ c && c ≤ 'f' then c.toNat - 87
  else if 'A' ≤ c && c ≤ 'F' then c.toNat - 55
  else 0

/-- `parseInt(s, 16)` on a well-formed hex string. -/
def parseHex (s : Str) : Nat := s.foldl (fun r c => r * 16 + hexVal c) 0

-- ============================================================================
-- Base-36 key alphabet codec and HMAC-based checksum (license-crypto.js;
-- both product variants contain textually identical copies of encodeBase36,
-- decodeBase36 and generateChecksum, differing only in the secret key).
-- ============================================================================

/-- `CONFIG.CHARSET = 'ABCDEFGHIJKLMNOPQRSTUVWXYZ0123456789'`. -/
def CHARSET : Str := ("ABCDEFGHIJKLMNOPQRSTUVWXYZ0123456789").data

/-- The digit-accumulation loop of `encodeBase36`, most significant digit
first, with an explicit fuel argument to keep the recursion structural; the
fuel never runs out because `(n + 1) / 36 <= n`. -/
def encodeDigitsF : Nat → Nat → Str
  | _, 0 => []
  | 0, _ + 1 => []
  | f + 1, n + 1 =>
      encodeDigitsF f ((n + 1) / 36) ++ [CHARSET.getD ((n + 1) % 36) 'A']

/-- Base-36 digits of `n` (empty for `n = 0`). -/
def encodeDigits (n : Nat) : Str := encodeDigitsF n n

/-- `encodeBase36(num, length)`: base-36 digits of `num` (empty when
`num <= 0`, as the JS `while (num > 0)` loop never runs), left-padded with
`CHARSET[0] = 'A'`, then `substring(0, length)`. -/
def encodeBase36 (num : Int) (len : Nat) : Str :=
  let digits := if num ≤ 0 then [] else encodeDigits num.toNat
  (List.replicate (len - digits.length) 'A' ++ digits).take len

/-- `CHARSET.indexOf(c)`: index in the alphabet, or `-1` when absent. -/
def charsetIdx (c : Char) : Int :=
  match CHARSET.indexOf? c with
  | some i => (i : Int)
  | none => -1

/-- `decodeBase36(str)`: fold `result * 36 + chars.indexOf(str[i])`. -/
def decodeBase36 (s : Str) : Int :=
  s.foldl (fun r c => r * 36 + charsetIdx c) 0

/-- `generateChecksum(data)`: first 8 hex chars of
`HMAC-SHA256(secret, data)` parsed as an integer and re-encoded over the
36-char alphabet, left-padded to 4 chars. -/
def generateChecksumWith (secret data : Str) : Str :=
  let hash := toHex (Sha2.hmacSha256 (strBytes secret) (strBytes data))
  let num := parseHex (hash.take 8)
  encodeBase36 (num : Int) 4

/-- The template literal `${seg1}-${seg2}-${seg3}-${seg4}-${seg5}-${seg6}`. -/
def mkKey6 (s1 s2 s3 s4 s5 s6 : Str) : Str :=
  s1 ++ '-' :: (s2 ++ '-' :: (s3 ++ '-' :: (s4 ++ '-' :: (s5 ++ '-' :: s6))))

/-- The template literal `${seg1}-${seg2}-${seg3}-${seg4}`. -/
def mkKey4 (s1 s2 s3 s4 : Str) : Str :=
  s1 ++ '-' :: (s2 ++ '-' :: (s3 ++ '-' :: s4))

-- ============================================================================
-- EyeSee license-crypto (pre-binding, 6-segment keys with embedded expiry
-- and hardware-ID fragment)
-- ============================================================================

namespace Eyesee

def SECRET_KEY : Str := ("eyesee-license-secret-key-2024-v1").data

def PRODUCT_CODE : Str := ("ES01").data

def generateChecksum (data : Str) : Str := generateChecksumWith SECRET_KEY data

/-- `new Date('2020-01-01').getTime()`. -/
def minDateMs : Int := 1577836800000

/-- `new Date('2100-01-01').getTime()`. -/
def maxDateMs : Int := 4102444800000

/-- `generateLicenseKey(expiryDate, hardwareId)`.  The expiry date is its
epoch-millisecond time value; `r1`, `r2` stand for the two
`crypto.randomBytes(2).readUInt16BE()` draws.  Throws (models `throw new
Error(...)`) when the hardware ID is shorter than 8 characters; an empty
hardware ID is also falsy and rejected by the same guard. -/
def generateLicenseKey (expiryMs : Int) (hardwareId : Str) (r1 r2 : Nat) :
    Except Str Str :=
  if hardwareId.length < 8 then
    .error ("Invalid hardware ID. Must be at least 8 characters.").data
  else
    let hwNormalized := (jsToUpper hardwareId).take 8
    let seg1 := encodeBase36 (r1 : Int) 2 ++ PRODUCT_CODE.take 2
    let seg2 := (PRODUCT_CODE.drop 2).take 2 ++ encodeBase36 (r2 : Int) 2
    let daysFromEpoch := Int.fdiv expiryMs 864000000
    let seg3 := encodeBase36 daysFromEpoch 4
    let seg4 := hwNormalized.take 4
    let seg5 := (hwNormalized.drop 4).take 4
    let seg6 := generateChecksum (seg1 ++ seg2 ++ seg3 ++ seg4 ++ seg5)
    .ok (mkKey6 seg1 seg2 seg3 seg4 seg5 seg6)

/-- Result object of `validateLicenseKey` (pre-binding): decoded expiry in
epoch milliseconds and the embedded 8-char hardware-ID fragment. -/
structure ValidationResult where
  valid : Bool
  expiryDate : Option Int
  hardwareId : Option Str
  error : Option Str
  deriving Repr, DecidableEq

/-- Per-segment format loop: each segment must be 4 chars long and drawn
from the alphabet; the first violation determines the error message. -/
def checkSegments : List Str → Option Str
  | [] => none
  | s :: rest =>
      if s.length ≠ 4 then some ("Format key tidak valid").data
      else match s.find? (fun c => !CHARSET.contains c) with
           | some _ => some ("Karakter tidak valid dalam key").data
           | none => checkSegments rest

/-- The body of `validateLicenseKey` after `cleanKey.split('-')`:
count check, per-segment checks, checksum, product code, expiry decode and
sanity bound, in source order. -/
def validateSegments (segments : List Str) : ValidationResult :=
  match segments with
  | [seg1, seg2, seg3, seg4, seg5, seg6] =>
      match checkSegments [seg1, seg2, seg3, seg4, seg5, seg6] with
      | some e => ⟨false, none, none, some e⟩
      | none =>
          let dataToCheck := seg1 ++ seg2 ++ seg3 ++ seg4 ++ seg5
          let expectedChecksum := generateChecksum dataToCheck
          if seg6 ≠ expectedChecksum then
            ⟨false, none, none, some ("License key tidak valid").data⟩
          else
            let productCode := (seg1.drop 2).take 2 ++ seg2.take 2
            if productCode ≠ PRODUCT_CODE then
              ⟨false, none, none, some ("Product code tidak valid").data⟩
            else
              let embeddedHardwareId := seg4 ++ seg5
              let daysFromEpoch := decodeBase36 seg3
              let expiryMs := daysFromEpoch * 864000000
              if expiryMs < minDateMs ∨ expiryMs > maxDateMs then
                ⟨false, none, none,
                 some ("Tanggal expired tidak valid dalam key").data⟩
              else
                ⟨true, some expiryMs, some embeddedHardwareId, none⟩
  | _ => ⟨false, none, none,
          some ("Format key tidak valid. Gunakan format: XXXX-XXXX-XXXX-XXXX-XXXX-XXXX").data⟩

/-- `validateLicenseKey(licenseKey)`: normalize (trim, uppercase), split on
dashes, then validate the segments. -/
def validateLicenseKey (licenseKey : Str) : ValidationResult :=
  validateSegments ((jsToUpper (jsTrim licenseKey)).splitOn '-')

end Eyesee

-- ============================================================================
-- VComm license-crypto (post-binding, 4-segment keys; no embedded expiry or
-- hardware ID; note the product code is verified BEFORE the checksum here)
-- ============================================================================

namespace Vcomm

def SECRET_KEY : Str := ("vcomm-license-secret-key-2024-v2").data

def PRODUCT_CODE : Str := ("VC01").data

def generateChecksum (data : Str) : Str := generateChecksumWith SECRET_KEY data

/-- Result object of the 4-segment `validateLicenseKey`. -/
structure ValidationResult where
  valid : Bool
  productCode : Option Str
  error : Option Str
  deriving Repr, DecidableEq

/-- The body of the 4-segment `validateLicenseKey` after the split: count
check, per-segment checks, product code extraction and comparison, then the
checksum comparison — in that source order. -/
def validateSegments (segments : List Str) : ValidationResult :=
  match segments with
  | [seg1, seg2, seg3, seg4] =>
      match Eyesee.checkSegments [seg1, seg2, seg3, seg4] with
      | some e => ⟨false, none, some e⟩
      | none =>
          let productCode := (seg1.drop 2).take 2 ++ seg2.take 2
          if productCode ≠ PRODUCT_CODE then
            ⟨false, none, some ("License key bukan untuk aplikasi ini").data⟩
          else
            let dataToCheck := seg1 ++ seg2 ++ seg3
            let expectedChecksum := generateChecksum dataToCheck
            if seg4 ≠ expectedChecksum then
              ⟨false, none, some ("License key tidak valid").data⟩
            else
              ⟨true, some productCode, none⟩
  | _ => ⟨false, none,
          some ("Format key tidak valid. Gunakan format: XXXX-XXXX-XXXX-XXXX").data⟩

/-- The 4-segment `validateLicenseKey(licenseKey)`. -/
def validateLicenseKey (licenseKey : Str) : ValidationResult :=
  validateSegments ((jsToUpper (jsTrim licenseKey)).splitOn '-')

end Vcomm

-- ============================================================================
-- Decrypt / load model (license-crypto decrypt + license-storage
-- loadLicenseData).  The AES-256-GCM deciphering performed by Node's crypto
-- module either yields the plaintext or throws (authentication-tag mismatch,
-- truncated or non-base64 blob); its outcome on the given blob and password
-- is a parameter, and the claims quantify over every possible outcome.
-- ============================================================================

/-- Outcome of the Node AES-256-GCM decipher calls on a stored blob and
password: the recovered plaintext, or a thrown error. -/
inductive AesGcmOutcome where
  | plaintext (s : Str)
  | thrown (msg : Str)
  deriving Repr, DecidableEq

/-- `decrypt(encryptedData, password)`: the entire body sits in a
`try/catch`; any throw is caught and turned into `null`. -/
def decrypt (outcome : AesGcmOutcome) : Option Str :=
  match outcome with
  | .plaintext s => some s
  | .thrown _ => none

/-- `JSON.parse` on the decrypted plaintext: a parsed record or a thrown
`SyntaxError`; again a parameter ranged over by the claims. -/
abbrev JsonParse (α : Type) := Str → Except Str α

/-- `loadLicenseData()` with its `try/catch` made explicit: the `Except`
layer is JS exception propagation, and the function's own handler catches
everything, so the public result is always `.ok`. -/
def loadLicenseDataE {α : Type} (stored : Option Str)
    (dec : Str → Option Str) (parse : JsonParse α) :
    Except Str (Option α) :=
  -- try-block body
  let body : Except Str (Option α) :=
    match stored with
    | none => .ok none
    | some blob =>
        match dec blob with
        | none => .ok none
        | some plain =>
            match parse plain with
            | .error e => .error e
            | .ok d => .ok (some d)
  -- catch (error) { return null; }
  match body with
  | .error _ => .ok none
  | .ok v => .ok v

/-- The value `loadLicenseData()` actually returns: absent blob, failed
decrypt and failed parse (caught by the handler) all give `null`. -/
def loadLicenseData {α : Type} (stored : Option Str)
    (dec : Str → Option Str) (parse : JsonParse α) : Option α :=
  match stored with
  | none => none
  | some blob =>
      match dec blob with
      | none => none
      | some plain =>
          match parse plain with
          | .error _ => none
          | .ok d => some d

-- ============================================================================
-- EyeSee license-storage (preload.js variant: clock-manipulation detection,
-- lastCheckTime) and EyeSee license-manager (pre-binding)
-- ============================================================================

namespace Eyesee

/-- Decrypted activation record (pre-binding): key, expiry, bound hardware
ID, activation time. -/
structure LicenseData where
  licenseKey : Str
  expiryDate : Int
  hardwareId : Str
  activatedAt : Int
  deriving Repr, DecidableEq

/-- The electron-store file contents for the pre-binding variant.  The
`licenseData` slot is `none` when the key is absent; when present, the inner
`Option` is the decrypt/parse outcome of the stored encrypted blob (the
byte-level model of that outcome is `loadLicenseData` above). -/
structure StoreState where
  licenseData : Option (Option LicenseData)
  boundHardwareId : Option Str
  activationDate : Option Int
  lastCheckTime : Option Int
  deriving Repr, DecidableEq

/-- Result of `checkClockManipulation`. -/
structure ClockCheckResult where
  manipulated : Bool
  lastCheckTime : Option Int
  currentTime : Int
  timeDifference : Option Int
  deriving Repr, DecidableEq

/-- `checkClockManipulation(toleranceMs)`: manipulation is flagged exactly
when a last check time exists and `now < lastCheck - toleranceMs`. -/
def checkClockManipulation (st : StoreState) (now : Int)
    (toleranceMs : Int) : ClockCheckResult :=
  match st.lastCheckTime with
  | none => ⟨false, none, now, none⟩
  | some lastCheck =>
      ⟨decide (now < lastCheck - toleranceMs), some lastCheck, now,
       some (now - lastCheck)⟩

/-- `updateLastCheckTime()`. -/
def updateLastCheckTime (st : StoreState) (now : Int) : StoreState :=
  { st with lastCheckTime := some now }

/-- `hasLicense()`. -/
def hasLicense (st : StoreState) : Bool := st.licenseData.isSome

/-- What `loadLicenseData()` yields on this store state. -/
def loadStoredLicense (st : StoreState) : Option LicenseData :=
  st.licenseData.bind id

/-- `clearLicenseData()`: deletes the license record, the bound hardware ID
and the activation date, but deliberately keeps `lastCheckTime`
("Keep last check time for security"). -/
def clearLicenseData (st : StoreState) : StoreState :=
  { st with licenseData := none, boundHardwareId := none,
            activationDate := none }

/-- `CONFIG.GRACE_PERIOD_DAYS`. -/
def GRACE_PERIOD_DAYS : Int := 7

/-- `CONFIG.CLOCK_TOLERANCE_MS` (1 hour). -/
def CLOCK_TOLERANCE_MS : Int := 3600000

/-- `CONFIG.REMINDER_DAYS`. -/
def REMINDER_DAYS : List Int := [30, 14, 7]

/-- `Math.ceil(a / b)` for integer `a` and positive integer `b`. -/
def jsCeilDiv (a b : Int) : Int := -(Int.fdiv (-a) b)

/-- `getDaysUntilExpiry(expiryDate)`: `Math.ceil(diffMs / 86400000)`. -/
def getDaysUntilExpiry (now expiryMs : Int) : Int :=
  jsCeilDiv (expiryMs - now) 86400000

/-- `isInGracePeriod(expiryDate)`. -/
def isInGracePeriod (now expiryMs : Int) : Bool :=
  let d := getDaysUntilExpiry now expiryMs
  decide (d < 0) && decide (d ≥ -GRACE_PERIOD_DAYS)

/-- `getActiveReminder(expiryDate)`: returns the days-until-expiry figure
when it falls inside some reminder window, else `null`. -/
def getActiveReminder (now expiryMs : Int) : Option Int :=
  let d := getDaysUntilExpiry now expiryMs
  match REMINDER_DAYS.find? (fun r => decide (d ≤ r) && decide (d > 0)) with
  | some _ => some d
  | none => none

/-- `LicenseStatus` (pre-binding manager). -/
inductive LicenseStatus where
  | valid
  | expired
  | grace_period
  | invalid_key
  | hardware_mismatch
  | clock_manipulated
  | not_activated
  deriving Repr, DecidableEq

/-- Result object of the pre-binding `validateLicense()`. -/
structure PreValidation where
  status : LicenseStatus
  expiryDate : Option Int
  daysUntilExpiry : Option Int
  reminderDays : Option Int
  hardwareId : Str
  gracePeriodRemaining : Option Int
  deriving Repr, DecidableEq

/-- The pre-binding `validateLicense()` (license-manager.js): clock check
first, then last-check update, existence, decrypt, hardware binding and
expiry/grace arithmetic, returning the result and the updated store. -/
def validateLicense (st : StoreState) (now : Int) (currentHardwareId : Str) :
    PreValidation × StoreState :=
  let clockCheck := checkClockManipulation st now CLOCK_TOLERANCE_MS
  if clockCheck.manipulated then
    (⟨.clock_manipulated, none, none, none, currentHardwareId, none⟩, st)
  else
    let st := updateLastCheckTime st now
    if !hasLicense st then
      (⟨.not_activated, none, none, none, currentHardwareId, none⟩, st)
    else
      match loadStoredLicense st with
      | none =>
          (⟨.invalid_key, none, none, none, currentHardwareId, none⟩,
           clearLicenseData st)
      | some licenseData =>
          if licenseData.hardwareId ≠ currentHardwareId then
            (⟨.hardware_mismatch, none, none, none, currentHardwareId, none⟩,
             st)
          else
            let d := getDaysUntilExpiry now licenseData.expiryDate
            if d < 0 then
              if isInGracePeriod now licenseData.expiryDate then
                (⟨.grace_period, some licenseData.expiryDate, some d, none,
                  currentHardwareId, some (GRACE_PERIOD_DAYS + d)⟩, st)
              else
                (⟨.expired, some licenseData.expiryDate, some d, none,
                  currentHardwareId, none⟩, st)
            else
              (⟨.valid, some licenseData.expiryDate, some d,
                getActiveReminder now licenseData.expiryDate,
                currentHardwareId, none⟩, st)

/-- The pre-binding `deactivateLicense()`. -/
def deactivateLicense (st : StoreState) : Bool × StoreState :=
  (true, clearLicenseData st)

end Eyesee

-- ============================================================================
-- VComm license-storage (server-verdict cache, offline tolerance) and VComm
-- license-manager (post-binding, server-based validation)
-- ============================================================================

namespace Vcomm

/-- Decrypted activation record (post-binding): no expiry, only the key,
bound hardware ID, product code and activation time. -/
structure LicenseData where
  licenseKey : Str
  hardwareId : Str
  productCode : Option Str
  activatedAt : Int
  deriving Repr, DecidableEq

/-- The cached server verdict written by `saveServerCache`. -/
structure ServerCache where
  valid : Bool
  revoked : Bool
  revokedReason : Option Str
  cachedAt : Int
  offlineToleranceHours : Nat
  deriving Repr, DecidableEq

/-- The electron-store file contents for the post-binding variant: the four
keys `licenseData`, `boundHardwareId`, `serverCache`, `lastServerCheck`.
The inner `Option` of `licenseData` is the decrypt/parse outcome of the
stored blob, as in the pre-binding store. -/
structure StoreState where
  licenseData : Option (Option LicenseData)
  boundHardwareId : Option Str
  serverCache : Option ServerCache
  lastServerCheck : Option Int
  deriving Repr, DecidableEq

/-- The object `serverClient.validateLicense` resolves to when the server
answered (the client itself maps any network failure to an offline marker
instead of rejecting). -/
structure ServerResponse where
  valid : Bool
  activated : Bool
  revoked : Bool
  revokedReason : Option Str
  offlineToleranceHours : Nat
  deriving Repr, DecidableEq

/-- What the awaited `serverClient.validateLicense(hardwareId)` produced:
either the offline marker (connection refused, DNS failure, timeout — or a
thrown error caught by the manager, which lands in the same handler) or a
server response. -/
inductive ServerCall where
  | offline
  | online (resp : ServerResponse)
  deriving Repr, DecidableEq

/-- `hasLicense()`. -/
def hasLicense (st : StoreState) : Bool := st.licenseData.isSome

/-- What `loadLicenseData()` yields on this store state. -/
def loadStoredLicense (st : StoreState) : Option LicenseData :=
  st.licenseData.bind id

/-- `loadServerCache()`. -/
def loadServerCache (st : StoreState) : Option ServerCache :=
  st.serverCache

/-- `getLastServerCheck()`. -/
def getLastServerCheck (st : StoreState) : Option Int :=
  st.lastServerCheck

/-- `saveServerCache(serverResponse)`: overwrites the cache (with the JS
`|| false` / `|| 24` defaults) and stamps `lastServerCheck = Date.now()`. -/
def saveServerCache (st : StoreState) (resp : ServerResponse) (now : Int) :
    StoreState :=
  { st with
    serverCache := some
      { valid := resp.valid
        revoked := resp.revoked
        revokedReason := resp.revokedReason
        cachedAt := now
        offlineToleranceHours := jsOrNat (some resp.offlineToleranceHours) 24 }
    lastServerCheck := some now }

/-- `clearLicenseData()`: deletes only `licenseData` and `boundHardwareId`
("keeps server cache for security"). -/
def clearLicenseData (st : StoreState) : StoreState :=
  { st with licenseData := none, boundHardwareId := none }

/-- Result of `checkOfflineStatus`. -/
structure OfflineStatus where
  hasCache : Bool
  expired : Bool
  hoursOffline : Option Int
  deriving Repr, DecidableEq

/-- `checkOfflineStatus(toleranceHours)`: the tolerance comes from the cache
when present (JS `cache?.offlineToleranceHours || toleranceHours`), there is
no cache exactly when `lastServerCheck` is absent, and the window is
exceeded when `now - lastCheck > tolerance * 3600000`. -/
def checkOfflineStatus (st : StoreState) (now : Int) (toleranceHours : Nat) :
    OfflineStatus :=
  let tolerance :=
    match st.serverCache with
    | none => toleranceHours
    | some c => jsOrNat (some c.offlineToleranceHours) toleranceHours
  let toleranceMs : Int := (tolerance : Int) * 3600000
  match st.lastServerCheck with
  | none => ⟨false, true, none⟩
  | some lastCheck =>
      let elapsed := now - lastCheck
      ⟨true, decide (elapsed > toleranceMs), some (Int.fdiv elapsed 3600000)⟩

/-- `LicenseStatus` (post-binding manager).  Note: there is no
clock-manipulation status in this variant. -/
inductive LicenseStatus where
  | valid
  | revoked
  | invalid_key
  | key_already_used
  | not_activated
  | offline_valid
  | offline_expired
  | server_error
  deriving Repr, DecidableEq

/-- `CONFIG.OFFLINE_TOLERANCE_HOURS`. -/
def OFFLINE_TOLERANCE_HOURS : Nat := 24

/-- Result object of the post-binding `validateLicense()`. -/
structure PostValidation where
  status : LicenseStatus
  hardwareId : Str
  online : Bool
  license : Option LicenseData
  deriving Repr, DecidableEq

/-- `handleOfflineValidation(result)`: no cache (never verified) ⇒
OFFLINE_EXPIRED; revoked cache ⇒ REVOKED; tolerance exceeded ⇒
OFFLINE_EXPIRED; otherwise OFFLINE_VALID. -/
def handleOfflineValidation (st : StoreState) (now : Int)
    (hardwareId : Str) (license : Option LicenseData) :
    PostValidation × StoreState :=
  let offlineStatus := checkOfflineStatus st now OFFLINE_TOLERANCE_HOURS
  let cache := loadServerCache st
  if !offlineStatus.hasCache then
    (⟨.offline_expired, hardwareId, false, license⟩, st)
  else if (match cache with | some c => c.revoked | none => false) then
    (⟨.revoked, hardwareId, false, license⟩, st)
  else if offlineStatus.expired then
    (⟨.offline_expired, hardwareId, false, license⟩, st)
  else
    (⟨.offline_valid, hardwareId, false, license⟩, st)

/-- The post-binding `validateLicense()`: local existence and decrypt
checks, then the server call; the server's verdict is cached; offline (or a
thrown error) routes to `handleOfflineValidation`.  A server answer of
`activated = false` (after the `revoked` and `valid` branches) erases the
local record.  There is no clock-manipulation check in this manager. -/
def validateLicense (st : StoreState) (now : Int) (hardwareId : Str)
    (server : ServerCall) : PostValidation × StoreState :=
  if !hasLicense st then
    (⟨.not_activated, hardwareId, false, none⟩, st)
  else
    match loadStoredLicense st with
    | none =>
        (⟨.invalid_key, hardwareId, false, none⟩, clearLicenseData st)
    | some localData =>
        match server with
        | .offline => handleOfflineValidation st now hardwareId (some localData)
        | .online resp =>
            let st := saveServerCache st resp now
            if resp.revoked then
              (⟨.revoked, hardwareId, true, some localData⟩, st)
            else if resp.valid then
              (⟨.valid, hardwareId, true, some localData⟩, st)
            else if !resp.activated then
              (⟨.not_activated, hardwareId, true, some localData⟩,
               clearLicenseData st)
            else
              (⟨.invalid_key, hardwareId, true, some localData⟩, st)

/-- The post-binding `deactivateLicense()`: clears the activation record via
`clearLicenseData` and reports success. -/
def deactivateLicense (st : StoreState) : Bool × StoreState :=
  (true, clearLicenseData st)

end Vcomm

-- ============================================================================
-- Supporting lemmas: base-36 codec arithmetic
-- ============================================================================

theorem encodeDigitsF_congr :
    ∀ (n f g : Nat), n ≤ f → n ≤ g → encodeDigitsF f n = encodeDigitsF g n := by
  intro n
  induction n using Nat.strong_induction_on with
  | _ n ih =>
    intro f g hf hg
    match n, f, g with
    | 0, f, g => cases f <;> cases g <;> rfl
    | m + 1, f + 1, g + 1 =>
      simp only [encodeDigitsF]
      have hdiv : (m + 1) / 36 < m + 1 := Nat.div_lt_self (Nat.succ_pos m) (by omega)
      rw [ih ((m + 1) / 36) hdiv f ((m + 1) / 36) (by omega) (le_refl _),
          ih ((m + 1) / 36) hdiv g ((m + 1) / 36) (by omega) (le_refl _)]

theorem encodeDigits_pos (n : Nat) (h : 0 < n) :
    encodeDigits n = encodeDigits (n / 36) ++ [CHARSET.getD (n % 36) 'A'] := by
  match n, h with
  | m + 1, _ =>
    show encodeDigitsF (m + 1) (m + 1) = _
    simp only [encodeDigitsF]
    have hdiv : (m + 1) / 36 < m + 1 := Nat.div_lt_self (Nat.succ_pos m) (by omega)
    rw [encodeDigitsF_congr ((m + 1) / 36) m ((m + 1) / 36) (by omega) (le_refl _)]
    rfl

theorem charsetIdx_getD : ∀ k < 36, charsetIdx (CHARSET.getD k 'A') = (k : Int) := by
  decide

theorem decodeBase36_snoc (xs : Str) (c : Char) :
    decodeBase36 (xs ++ [c]) = decodeBase36 xs * 36 + charsetIdx c := by
  simp [decodeBase36, List.foldl_append]

theorem decode_encodeDigits : ∀ n : Nat, decodeBase36 (encodeDigits n) = n := by
  intro n
  induction n using Nat.strong_induction_on with
  | _ n ih =>
    rcases Nat.eq_zero_or_pos n with h0 | hpos
    · subst h0; rfl
    · rw [encodeDigits_pos n hpos, decodeBase36_snoc,
          ih (n / 36) (Nat.div_lt_self hpos (by omega)),
          charsetIdx_getD (n % 36) (Nat.mod_lt n (by omega))]
      have := Nat.div_add_mod n 36
      push_cast
      omega

theorem length_encodeDigits_le :
    ∀ (k n : Nat), n < 36 ^ k → (encodeDigits n).length ≤ k := by
  intro k
  induction k with
  | zero => intro n h; interval_cases n; simp [encodeDigits, encodeDigitsF]
  | succ k ih =>
    intro n h
    rcases Nat.eq_zero_or_pos n with h0 | hpos
    · subst h0; simp [encodeDigits, encodeDigitsF]
    · rw [encodeDigits_pos n hpos]
      have hdivlt : n / 36 < 36 ^ k := by
        rw [Nat.div_lt_iff_lt_mul (by omega)]
        calc n < 36 ^ (k + 1) := h
        _ = 36 ^ k * 36 := by ring
      have := ih (n / 36) hdivlt
      simp only [List.length_append, List.length_singleton]
      omega

theorem mem_encodeDigits : ∀ (n : Nat), ∀ c ∈ encodeDigits n, c ∈ CHARSET := by
  intro n
  induction n using Nat.strong_induction_on with
  | _ n ih =>
    intro c hc
    rcases Nat.eq_zero_or_pos n with h0 | hpos
    · subst h0; simp [encodeDigits, encodeDigitsF] at hc
    · rw [encodeDigits_pos n hpos] at hc
      rcases List.mem_append.mp hc with h | h
      · exact ih (n / 36) (Nat.div_lt_self hpos (by omega)) c h
      · have : c = CHARSET.getD (n % 36) 'A' := by simpa using h
        subst this
        rw [List.getD_eq_getElem CHARSET 'A' (by simp [CHARSET]; omega)]
        exact List.getElem_mem _

theorem length_encodeBase36 (num : Int) (len : Nat) :
    (encodeBase36 num len).length = len := by
  simp only [encodeBase36, List.length_take, List.length_append,
             List.length_replicate]
  omega

theorem mem_encodeBase36 (num : Int) (len : Nat) :
    ∀ c ∈ encodeBase36 num len, c ∈ CHARSET := by
  intro c hc
  simp only [encodeBase36] at hc
  have hc' := List.mem_of_mem_take hc
  rcases List.mem_append.mp hc' with h | h
  · have : c = 'A' := List.eq_of_mem_replicate h
    subst this; decide
  · split at h
    · simp at h
    · exact mem_encodeDigits _ c h

theorem decode_replicate_A (m : Nat) (xs : Str) :
    decodeBase36 (List.replicate m 'A' ++ xs) = decodeBase36 xs := by
  induction m with
  | zero => simp
  | succ m ih =>
    have : List.replicate (m + 1) 'A' ++ xs = 'A' :: (List.replicate m 'A' ++ xs) := by
      simp [List.replicate_succ]
    rw [this]
    show (List.replicate m 'A' ++ xs).foldl (fun r c => r * 36 + charsetIdx c)
        (0 * 36 + charsetIdx 'A') = _
    have hA : (0 : Int) * 36 + charsetIdx 'A' = 0 := by decide
    rw [hA]
    exact ih

theorem decode_encodeBase36 (d : Int) (h0 : 0 ≤ d) (hlt : d < 36 ^ 4) :
    decodeBase36 (encodeBase36 d 4) = d := by
  rcases lt_or_eq_of_le h0 with hpos | hzero
  · have hnum : ¬ d ≤ 0 := by omega
    have htn : (0:Nat) < d.toNat := by omega
    have htlt : d.toNat < 36 ^ 4 := by omega
    have hlen : (encodeDigits d.toNat).length ≤ 4 := length_encodeDigits_le 4 _ htlt
    simp only [encodeBase36, if_neg hnum]
    rw [List.take_of_length_le (by simp [List.length_replicate]; omega),
        decode_replicate_A, decode_encodeDigits]
    omega
  · rw [← hzero]; decide

-- ============================================================================
-- Supporting lemmas: key normalization and splitting
-- ============================================================================

theorem charset_toUpper : ∀ c ∈ CHARSET, c.toUpper = c := by decide

theorem charset_not_space : ∀ c ∈ CHARSET, isSpaceChar c = false := by decide

theorem charset_ne_dash : ∀ c ∈ CHARSET, c ≠ '-' := by decide

theorem dropWhile_eq_self_of (p : Char → Bool) (s : Str)
    (h : ∀ c ∈ s, p c = false) : s.dropWhile p = s := by
  cases s with
  | nil => rfl
  | cons c cs => simp [List.dropWhile_cons, h c (List.mem_cons_self c cs)]

theorem jsTrim_eq_self (s : Str) (h : ∀ c ∈ s, isSpaceChar c = false) :
    jsTrim s = s := by
  unfold jsTrim
  rw [dropWhile_eq_self_of _ _ h,
      dropWhile_eq_self_of _ _ (fun c hc => h c (List.mem_reverse.mp hc)),
      List.reverse_reverse]

theorem jsToUpper_eq_self (s : Str) (h : ∀ c ∈ s, c.toUpper = c) :
    jsToUpper s = s := by
  unfold jsToUpper
  induction s with
  | nil => rfl
  | cons c cs ih =>
    simp only [List.map_cons, h c (List.mem_cons_self c cs), List.cons.injEq,
               true_and]
    exact ih (fun x hx => h x (List.mem_cons_of_mem c hx))

theorem splitOn_dash_cons (s rest : Str) (h : ∀ c ∈ s, c ≠ '-') :
    (s ++ '-' :: rest).splitOn '-' = s :: rest.splitOn '-' := by
  simp only [List.splitOn]
  exact List.splitOnP_first _ s (fun c hc => by simp [h c hc]) '-' (by simp) rest

theorem splitOn_dash_single (s : Str) (h : ∀ c ∈ s, c ≠ '-') :
    s.splitOn '-' = [s] := by
  simp only [List.splitOn]
  exact List.splitOnP_eq_single _ _ (fun c hc => by simp [h c hc])

theorem mem_mkKey6 (s1 s2 s3 s4 s5 s6 : Str)
    (h : ∀ s ∈ [s1, s2, s3, s4, s5, s6], ∀ c ∈ s, c ∈ CHARSET) :
    ∀ c ∈ mkKey6 s1 s2 s3 s4 s5 s6, c ∈ CHARSET ∨ c = '-' := by
  intro c hc
  simp only [mkKey6, List.mem_append, List.mem_cons] at hc
  rcases hc with h1 | h1 | h1 | h1 | h1 | h1 | h1 | h1 | h1 | h1 | h1 <;>
    first
      | (left; exact h _ (by simp) c h1)
      | (right; exact h1)

theorem mem_mkKey4 (s1 s2 s3 s4 : Str)
    (h : ∀ s ∈ [s1, s2, s3, s4], ∀ c ∈ s, c ∈ CHARSET) :
    ∀ c ∈ mkKey4 s1 s2 s3 s4, c ∈ CHARSET ∨ c = '-' := by
  intro c hc
  simp only [mkKey4, List.mem_append, List.mem_cons] at hc
  rcases hc with h1 | h1 | h1 | h1 | h1 | h1 | h1 <;>
    first
      | (left; exact h _ (by simp) c h1)
      | (right; exact h1)

/-- Normalization (trim + uppercase) fixes any string drawn from the key
alphabet plus dashes. -/
theorem normalize_eq_self (s : Str) (h : ∀ c ∈ s, c ∈ CHARSET ∨ c = '-') :
    jsToUpper (jsTrim s) = s := by
  have htrim : jsTrim s = s := by
    apply jsTrim_eq_self
    intro c hc
    rcases h c hc with hm | hd
    · exact charset_not_space c hm
    · subst hd; rfl
  rw [htrim]
  apply jsToUpper_eq_self
  intro c hc
  rcases h c hc with hm | hd
  · exact charset_toUpper c hm
  · subst hd; rfl

/-- Splitting a canonical 6-segment key recovers its segments. -/
theorem cleanSplit6 (s1 s2 s3 s4 s5 s6 : Str)
    (h : ∀ s ∈ [s1, s2, s3, s4, s5, s6], ∀ c ∈ s, c ∈ CHARSET) :
    (jsToUpper (jsTrim (mkKey6 s1 s2 s3 s4 s5 s6))).splitOn '-' =
      [s1, s2, s3, s4, s5, s6] := by
  rw [normalize_eq_self _ (mem_mkKey6 s1 s2 s3 s4 s5 s6 h)]
  have hd : ∀ s ∈ [s1, s2, s3, s4, s5, s6], ∀ c ∈ s, c ≠ '-' :=
    fun s hs c hc => charset_ne_dash c (h s hs c hc)
  simp only [mkKey6]
  rw [splitOn_dash_cons _ _ (hd s1 (by simp)),
      splitOn_dash_cons _ _ (hd s2 (by simp)),
      splitOn_dash_cons _ _ (hd s3 (by simp)),
      splitOn_dash_cons _ _ (hd s4 (by simp)),
      splitOn_dash_cons _ _ (hd s5 (by simp)),
      splitOn_dash_single _ (hd s6 (by simp))]

/-- Splitting a canonical 4-segment key recovers its segments. -/
theorem cleanSplit4 (s1 s2 s3 s4 : Str)
    (h : ∀ s ∈ [s1, s2, s3, s4], ∀ c ∈ s, c ∈ CHARSET) :
    (jsToUpper (jsTrim (mkKey4 s1 s2 s3 s4))).splitOn '-' =
      [s1, s2, s3, s4] := by
  rw [normalize_eq_self _ (mem_mkKey4 s1 s2 s3 s4 h)]
  have hd : ∀ s ∈ [s1, s2, s3, s4], ∀ c ∈ s, c ≠ '-' :=
    fun s hs c hc => charset_ne_dash c (h s hs c hc)
  simp only [mkKey4]
  rw [splitOn_dash_cons _ _ (hd s1 (by simp)),
      splitOn_dash_cons _ _ (hd s2 (by simp)),
      splitOn_dash_cons _ _ (hd s3 (by simp)),
      splitOn_dash_single _ (hd s4 (by simp))]

theorem checkSegments_eq_none (segs : List Str)
    (h : ∀ s ∈ segs, s.length = 4 ∧ ∀ c ∈ s, c ∈ CHARSET) :
    Eyesee.checkSegments segs = none := by
  induction segs with
  | nil => rfl
  | cons s rest ih =>
    obtain ⟨hlen, hchar⟩ := h s (List.mem_cons_self s rest)
    have hfind : s.find? (fun c => !CHARSET.contains c) = none := by
      rw [List.find?_eq_none]
      intro c hc
      simp [hchar c hc]
    simp only [Eyesee.checkSegments, hlen, hfind]
    exact ih (fun x hx => h x (List.mem_cons_of_mem s hx))

/-- On a canonical key, the 6-segment validator is the segment-level body
applied to the six segments. -/
theorem eyesee_validate_canonical (s1 s2 s3 s4 s5 s6 : Str)
    (h : ∀ s ∈ [s1, s2, s3, s4, s5, s6], ∀ c ∈ s, c ∈ CHARSET) :
    Eyesee.validateLicenseKey (mkKey6 s1 s2 s3 s4 s5 s6) =
      Eyesee.validateSegments [s1, s2, s3, s4, s5, s6] := by
  unfold Eyesee.validateLicenseKey
  rw [cleanSplit6 s1 s2 s3 s4 s5 s6 h]

/-- On a canonical key, the 4-segment validator is the segment-level body
applied to the four segments. -/
theorem vcomm_validate_canonical (s1 s2 s3 s4 : Str)
    (h : ∀ s ∈ [s1, s2, s3, s4], ∀ c ∈ s, c ∈ CHARSET) :
    Vcomm.validateLicenseKey (mkKey4 s1 s2 s3 s4) =
      Vcomm.validateSegments [s1, s2, s3, s4] := by
  unfold Vcomm.validateLicenseKey
  rw [cleanSplit4 s1 s2 s3 s4 h]

-- ============================================================================
-- Claims
-- ============================================================================

set_option maxRecDepth 1000000

/-- C1 (amended): in the pre-binding Manager, whenever a last-check
timestamp `t` is stored and `validate()` runs at a current time strictly
earlier than `t` minus the 1-hour tolerance, the result is
`CLOCK_MANIPULATED`, regardless of every other part of the store state
(activation record, hardware binding, expiry).  The post-binding Manager
performs no clock-manipulation check at all (see the counterexample). -/
theorem eyesee_clock_check_first (st : Eyesee.StoreState) (now : Int)
    (hw : Str) (t : Int) (ht : st.lastCheckTime = some t)
    (hclock : now < t - Eyesee.CLOCK_TOLERANCE_MS) :
    (Eyesee.validateLicense st now hw).1.status =
      Eyesee.LicenseStatus.clock_manipulated := by
  unfold Eyesee.validateLicense Eyesee.checkClockManipulation
  simp [ht, hclock]

/-- Witness for C1 at a concrete store: last check at 7 200 000 ms, clock
rolled back to 0 (two hours earlier). -/
theorem eyesee_clock_check_first_witness :
    (Eyesee.validateLicense ⟨none, none, none, some 7200000⟩ 0 []).1.status =
      Eyesee.LicenseStatus.clock_manipulated :=
  eyesee_clock_check_first ⟨none, none, none, some 7200000⟩ 0 [] 7200000 rfl
    (by decide)

/-- C1 counterexample: in the post-binding Manager the claim fails — with a
stored last-check timestamp of 10 000 000 000 ms and the clock rolled back
two hours (beyond the 1-hour tolerance), `validate()` with an activation
record, a valid non-revoked cache and the server unreachable returns
`OFFLINE_VALID`, not `CLOCK_MANIPULATED` (whose status does not even exist
in this Manager's enum). -/
theorem vcomm_no_clock_check_counterexample :
    (Vcomm.validateLicense
        ⟨some (some ⟨[], [], none, 0⟩), some [],
         some ⟨true, false, none, 10000000000, 24⟩, some 10000000000⟩
        (10000000000 - 7200000) [] .offline).1.status =
      Vcomm.LicenseStatus.offline_valid := by decide

/-- C2: with an activation record present and decryptable, a cached server
verdict with `offlineToleranceHours = 24` that is not revoked, and a stored
last-check timestamp `t`, the offline fallback of `validate()` returns
`OFFLINE_VALID` exactly when the elapsed time `now - t` is at most 24 hours
(86 400 000 ms), and `OFFLINE_EXPIRED` exactly when it exceeds it. -/
theorem vcomm_offline_tolerance_window (st : Vcomm.StoreState)
    (ld : Vcomm.LicenseData) (c : Vcomm.ServerCache) (t now : Int) (hw : Str)
    (hld : st.licenseData = some (some ld))
    (hc : st.serverCache = some c)
    (htol : c.offlineToleranceHours = 24)
    (hrev : c.revoked = false)
    (ht : st.lastServerCheck = some t) :
    ((Vcomm.validateLicense st now hw .offline).1.status =
        Vcomm.LicenseStatus.offline_valid ↔ now - t ≤ 86400000) ∧
    ((Vcomm.validateLicense st now hw .offline).1.status =
        Vcomm.LicenseStatus.offline_expired ↔ 86400000 < now - t) := by
  have hval : Vcomm.validateLicense st now hw .offline =
      Vcomm.handleOfflineValidation st now hw (some ld) := by
    unfold Vcomm.validateLicense
    simp [Vcomm.hasLicense, Vcomm.loadStoredLicense, hld]
  rw [hval]
  unfold Vcomm.handleOfflineValidation Vcomm.checkOfflineStatus
  simp only [Vcomm.loadServerCache, hc, ht, htol, hrev, jsOrNat]
  by_cases hcase : (86400000 : Int) < now - t
  · simp [hcase]
    omega
  · simp [hcase]
    omega

/-- Witness for C2: last check at time 0; at 23 hours (82 800 000 ms) the
status is `OFFLINE_VALID`, at 25 hours (90 000 000 ms) it is
`OFFLINE_EXPIRED`. -/
theorem vcomm_offline_tolerance_window_witness :
    ((Vcomm.validateLicense
        ⟨some (some ⟨[], [], none, 0⟩), some [],
         some ⟨true, false, none, 0, 24⟩, some 0⟩
        82800000 [] .offline).1.status = Vcomm.LicenseStatus.offline_valid) ∧
    ((Vcomm.validateLicense
        ⟨some (some ⟨[], [], none, 0⟩), some [],
         some ⟨true, false, none, 0, 24⟩, some 0⟩
        90000000 [] .offline).1.status = Vcomm.LicenseStatus.offline_expired) := by
  constructor
  · exact ((vcomm_offline_tolerance_window _ ⟨[], [], none, 0⟩
      ⟨true, false, none, 0, 24⟩ 0 82800000 [] rfl rfl rfl rfl rfl).1).mpr
      (by decide)
  · exact ((vcomm_offline_tolerance_window _ ⟨[], [], none, 0⟩
      ⟨true, false, none, 0, 24⟩ 0 90000000 [] rfl rfl rfl rfl rfl).2).mpr
      (by decide)

/-- C5: when the cached verdict is revoked and a last-check timestamp
exists, the offline path of `validate()` returns `REVOKED` — never
`OFFLINE_VALID` — for every elapsed time, including times well inside the
tolerance window; and the offline handler itself does the same for any
in-memory license argument. -/
theorem vcomm_offline_revoked_wins (st : Vcomm.StoreState)
    (ld : Vcomm.LicenseData) (c : Vcomm.ServerCache) (t now : Int) (hw : Str)
    (lic : Option Vcomm.LicenseData)
    (hld : st.licenseData = some (some ld))
    (hc : st.serverCache = some c)
    (hrev : c.revoked = true)
    (ht : st.lastServerCheck = some t) :
    (Vcomm.validateLicense st now hw .offline).1.status =
      Vcomm.LicenseStatus.revoked ∧
    (Vcomm.handleOfflineValidation st now hw lic).1.status =
      Vcomm.LicenseStatus.revoked := by
  have hoff : ∀ l, (Vcomm.handleOfflineValidation st now hw l).1.status =
      Vcomm.LicenseStatus.revoked := by
    intro l
    unfold Vcomm.handleOfflineValidation Vcomm.checkOfflineStatus
    simp [Vcomm.loadServerCache, hc, ht, hrev]
  have hval : Vcomm.validateLicense st now hw .offline =
      Vcomm.handleOfflineValidation st now hw (some ld) := by
    unfold Vcomm.validateLicense
    simp [Vcomm.hasLicense, Vcomm.loadStoredLicense, hld]
  exact ⟨by rw [hval]; exact hoff (some ld), hoff lic⟩

/-- Witness for C5 at a concrete revoked cache, one hour after the last
check (well inside the 24-hour window). -/
theorem vcomm_offline_revoked_wins_witness :
    (Vcomm.validateLicense
        ⟨some (some ⟨[], [], none, 0⟩), some [],
         some ⟨true, true, none, 0, 24⟩, some 0⟩
        3600000 [] .offline).1.status = Vcomm.LicenseStatus.revoked :=
  (vcomm_offline_revoked_wins _ ⟨[], [], none, 0⟩ ⟨true, true, none, 0, 24⟩
    0 3600000 [] none rfl rfl rfl rfl).1

/-- C6: when the authenticated decryption of a stored blob throws (tag
mismatch, truncated or non-base64 input), `decrypt` returns the absent
value; `loadLicenseData` never lets an exception escape (its `Except` layer
always resolves to `.ok`) and yields the absent value whenever decryption
fails; and a subsequent `validate()` on such a store returns
`NOT_ACTIVATED` (no record) or `INVALID_KEY` (record fails to
decrypt/parse). -/
theorem decrypt_failure_degrades_safely {α : Type}
    (e blob : Str) (stored : Option Str) (dec : Str → Option Str)
    (parse : JsonParse α) (st : Vcomm.StoreState) (now : Int) (hw : Str)
    (server : Vcomm.ServerCall) :
    decrypt (.thrown e) = none ∧
    loadLicenseDataE stored dec parse =
      .ok (loadLicenseData stored dec parse) ∧
    (stored = some blob → dec blob = none →
      loadLicenseData stored dec parse = none) ∧
    (st.licenseData = none ∨ st.licenseData = some none →
      (Vcomm.validateLicense st now hw server).1.status =
          Vcomm.LicenseStatus.not_activated ∨
        (Vcomm.validateLicense st now hw server).1.status =
          Vcomm.LicenseStatus.invalid_key) := by
  refine ⟨rfl, ?_, ?_, ?_⟩
  · unfold loadLicenseData loadLicenseDataE
    rcases stored with _ | blob
    · rfl
    · rcases hd : dec blob with _ | plain
      · simp [hd]
      · rcases hp : parse plain with perr | pd <;> simp [hd, hp]
  · intro hstored hdec
    subst hstored
    unfold loadLicenseData
    simp [hdec]
  · intro hcase
    rcases hcase with h | h <;>
      · unfold Vcomm.validateLicense
        simp [Vcomm.hasLicense, Vcomm.loadStoredLicense, h]

/-- Witness for C6 at concrete inputs: a store holding a blob that fails to
decrypt, with the trivial parser. -/
theorem decrypt_failure_degrades_safely_witness :
    decrypt (.thrown []) = none ∧
    loadLicenseDataE (α := Vcomm.LicenseData) (some []) (fun _ => none)
        (fun _ => .error []) =
      .ok (loadLicenseData (some []) (fun _ => none) (fun _ => .error [])) ∧
    (some [] = some ([] : Str) → (fun (_ : Str) => (none : Option Str)) [] = none →
      loadLicenseData (α := Vcomm.LicenseData) (some []) (fun _ => none)
          (fun _ => .error []) = none) ∧
    ((⟨some none, none, none, none⟩ : Vcomm.StoreState).licenseData = none ∨
      (⟨some none, none, none, none⟩ : Vcomm.StoreState).licenseData = some none →
      (Vcomm.validateLicense ⟨some none, none, none, none⟩ 0 [] .offline).1.status =
          Vcomm.LicenseStatus.not_activated ∨
        (Vcomm.validateLicense ⟨some none, none, none, none⟩ 0 [] .offline).1.status =
          Vcomm.LicenseStatus.invalid_key) :=
  decrypt_failure_degrades_safely [] [] (some []) (fun _ => none)
    (fun _ => .error []) ⟨some none, none, none, none⟩ 0 [] .offline

/-- C8: `deactivate()` in the post-binding Manager removes exactly the
activation record and the bound hardware id; the server-verdict cache and
the last-check timestamp survive, and a subsequent `validate()` returns
`NOT_ACTIVATED`.  The pre-binding store's `clearLicenseData` likewise
preserves its last-check timestamp. -/
theorem vcomm_deactivate_preserves_cache (st : Vcomm.StoreState)
    (st2 : Eyesee.StoreState) :
    (Vcomm.deactivateLicense st).2.serverCache = st.serverCache ∧
    (Vcomm.deactivateLicense st).2.lastServerCheck = st.lastServerCheck ∧
    (Vcomm.deactivateLicense st).2.licenseData = none ∧
    (Vcomm.deactivateLicense st).2.boundHardwareId = none ∧
    (∀ (now : Int) (hw : Str) (server : Vcomm.ServerCall),
      (Vcomm.validateLicense (Vcomm.deactivateLicense st).2 now hw
          server).1.status = Vcomm.LicenseStatus.not_activated) ∧
    (Eyesee.clearLicenseData st2).lastCheckTime = st2.lastCheckTime := by
  exact ⟨rfl, rfl, rfl, rfl, fun now hw server => rfl, rfl⟩

/-- C9 counterexample: with a stored record that fails to decrypt (and a
populated server cache), `validate()` both reports `INVALID_KEY` and erases
the corrupt record in place — the resulting store is the original minus
`licenseData` and `boundHardwareId`, with no backup copy written anywhere —
refuting the claim that the corrupt record is not auto-deleted without a
backup. -/
theorem vcomm_corrupt_record_autodeleted_counterexample :
    (Vcomm.validateLicense
        ⟨some none, some [], some ⟨true, false, none, 5, 24⟩, some 5⟩
        0 [] .offline).1.status = Vcomm.LicenseStatus.invalid_key ∧
    (Vcomm.validateLicense
        ⟨some none, some [], some ⟨true, false, none, 5, 24⟩, some 5⟩
        0 [] .offline).2 =
      ⟨none, none, some ⟨true, false, none, 5, 24⟩, some 5⟩ := by
  exact ⟨rfl, rfl⟩

/-- C9 (amended): when the stored record fails to decrypt or parse, both
Managers report `INVALID_KEY` (recovering as unactivated) and silently
auto-delete the corrupt record in place via `clearLicenseData`; the
resulting store is exactly the original with the record keys removed — no
backup copy is written. -/
theorem vcomm_corrupt_record_cleared_no_backup (st : Vcomm.StoreState)
    (now : Int) (hw : Str) (server : Vcomm.ServerCall)
    (st2 : Eyesee.StoreState) (now2 : Int) (hw2 : Str)
    (hcor : st.licenseData = some none)
    (hcor2 : st2.licenseData = some none)
    (hclk : (Eyesee.checkClockManipulation st2 now2
        Eyesee.CLOCK_TOLERANCE_MS).manipulated = false) :
    (Vcomm.validateLicense st now hw server).1.status =
      Vcomm.LicenseStatus.invalid_key ∧
    (Vcomm.validateLicense st now hw server).2 =
      { st with licenseData := none, boundHardwareId := none } ∧
    (Eyesee.validateLicense st2 now2 hw2).1.status =
      Eyesee.LicenseStatus.invalid_key ∧
    (Eyesee.validateLicense st2 now2 hw2).2 =
      { st2 with licenseData := none, boundHardwareId := none,
                 activationDate := none, lastCheckTime := some now2 } := by
  refine ⟨?_, ?_, ?_, ?_⟩
  · unfold Vcomm.validateLicense
    simp [Vcomm.hasLicense, Vcomm.loadStoredLicense, hcor, Vcomm.clearLicenseData]
  · unfold Vcomm.validateLicense
    simp [Vcomm.hasLicense, Vcomm.loadStoredLicense, hcor, Vcomm.clearLicenseData]
  · unfold Eyesee.validateLicense
    simp [hclk, Eyesee.hasLicense, Eyesee.loadStoredLicense,
          Eyesee.updateLastCheckTime, hcor2, Eyesee.clearLicenseData]
  · unfold Eyesee.validateLicense
    simp [hclk, Eyesee.hasLicense, Eyesee.loadStoredLicense,
          Eyesee.updateLastCheckTime, hcor2, Eyesee.clearLicenseData]

/-- Witness for C9 (amended) at a concrete corrupt store in each variant. -/
theorem vcomm_corrupt_record_cleared_no_backup_witness :
    (Vcomm.validateLicense ⟨some none, some [], none, some 5⟩ 0 [] .offline).1.status =
      Vcomm.LicenseStatus.invalid_key ∧
    (Vcomm.validateLicense ⟨some none, some [], none, some 5⟩ 0 [] .offline).2 =
      ⟨none, none, none, some 5⟩ ∧
    (Eyesee.validateLicense ⟨some none, some [], some 1, some 5⟩ 6 []).1.status =
      Eyesee.LicenseStatus.invalid_key ∧
    (Eyesee.validateLicense ⟨some none, some [], some 1, some 5⟩ 6 []).2 =
      ⟨none, none, none, some 6⟩ :=
  vcomm_corrupt_record_cleared_no_backup
    ⟨some none, some [], none, some 5⟩ 0 [] .offline
    ⟨some none, some [], some 1, some 5⟩ 6 [] rfl rfl (by decide)

/-- C10 counterexample: a reachable server answering
`revoked = true, activated = false` makes `validate()` return `REVOKED` and
leaves the local activation record in place — refuting the claim that every
online response with `activated = false` deletes the record and yields
`NOT_ACTIVATED`. -/
theorem vcomm_server_revoked_keeps_record_counterexample :
    (Vcomm.validateLicense ⟨some (some ⟨[], [], none, 0⟩), some [], none, none⟩
        0 [] (.online ⟨false, false, true, none, 24⟩)).1.status =
      Vcomm.LicenseStatus.revoked ∧
    (Vcomm.validateLicense ⟨some (some ⟨[], [], none, 0⟩), some [], none, none⟩
        0 [] (.online ⟨false, false, true, none, 24⟩)).2.licenseData =
      some (some ⟨[], [], none, 0⟩) := by
  exact ⟨rfl, rfl⟩

/-- C10 (amended): when the server is reachable and answers with
`revoked = false`, `valid = false` and `activated = false`, the Manager
deletes the local activation record, returns `NOT_ACTIVATED`, and any later
`validate()` on the resulting store also returns `NOT_ACTIVATED` — so an
offline fallback can no longer resurrect the old record. -/
theorem vcomm_server_not_activated_clears_record (st : Vcomm.StoreState)
    (ld : Vcomm.LicenseData) (resp : Vcomm.ServerResponse) (now : Int)
    (hw : Str)
    (hld : st.licenseData = some (some ld))
    (hrev : resp.revoked = false) (hval : resp.valid = false)
    (hact : resp.activated = false) :
    (Vcomm.validateLicense st now hw (.online resp)).1.status =
      Vcomm.LicenseStatus.not_activated ∧
    (Vcomm.validateLicense st now hw (.online resp)).2.licenseData = none ∧
    (Vcomm.validateLicense st now hw (.online resp)).2.boundHardwareId = none ∧
    (∀ (now2 : Int) (hw2 : Str) (server2 : Vcomm.ServerCall),
      (Vcomm.validateLicense (Vcomm.validateLicense st now hw
          (.online resp)).2 now2 hw2 server2).1.status =
        Vcomm.LicenseStatus.not_activated) := by
  have hmain : Vcomm.validateLicense st now hw (.online resp) =
      (⟨.not_activated, hw, true, some ld⟩,
       Vcomm.clearLicenseData (Vcomm.saveServerCache st resp now)) := by
    unfold Vcomm.validateLicense
    simp [Vcomm.hasLicense, Vcomm.loadStoredLicense, hld, hrev, hval, hact]
  rw [hmain]
  exact ⟨rfl, rfl, rfl, fun now2 hw2 server2 => rfl⟩

/-- Witness for C10 (amended) at a concrete store and server response. -/
theorem vcomm_server_not_activated_clears_record_witness :
    (Vcomm.validateLicense ⟨some (some ⟨[], [], none, 0⟩), some [], none, none⟩
        7 [] (.online ⟨false, false, false, none, 24⟩)).1.status =
      Vcomm.LicenseStatus.not_activated ∧
    (Vcomm.validateLicense ⟨some (some ⟨[], [], none, 0⟩), some [], none, none⟩
        7 [] (.online ⟨false, false, false, none, 24⟩)).2.licenseData = none ∧
    (Vcomm.validateLicense ⟨some (some ⟨[], [], none, 0⟩), some [], none, none⟩
        7 [] (.online ⟨false, false, false, none, 24⟩)).2.boundHardwareId = none ∧
    (∀ (now2 : Int) (hw2 : Str) (server2 : Vcomm.ServerCall),
      (Vcomm.validateLicense (Vcomm.validateLicense
          ⟨some (some ⟨[], [], none, 0⟩), some [], none, none⟩
          7 [] (.online ⟨false, false, false, none, 24⟩)).2 now2 hw2
          server2).1.status = Vcomm.LicenseStatus.not_activated) :=
  vcomm_server_not_activated_clears_record
    ⟨some (some ⟨[], [], none, 0⟩), some [], none, none⟩ ⟨[], [], none, 0⟩
    ⟨false, false, false, none, 24⟩ 7 [] rfl rfl rfl rfl

theorem mem_generateChecksumWith (secret data : Str) :
    ∀ c ∈ generateChecksumWith secret data, c ∈ CHARSET :=
  mem_encodeBase36 _ _

theorem length_generateChecksumWith (secret data : Str) :
    (generateChecksumWith secret data).length = 4 :=
  length_encodeBase36 _ _

theorem checkSegments_none_length (segs : List Str) :
    Eyesee.checkSegments segs = none → ∀ s ∈ segs, s.length = 4 := by
  induction segs with
  | nil => intro _ s hs; simp at hs
  | cons s rest ih =>
    intro h x hx
    unfold Eyesee.checkSegments at h
    by_cases hlen : s.length = 4
    · rw [if_neg (fun hh => hh hlen)] at h
      rcases List.mem_cons.mp hx with rfl | hx'
      · exact hlen
      · rcases hf : s.find? (fun c => !CHARSET.contains c) with _ | y
        · rw [hf] at h
          exact ih h x hx'
        · rw [hf] at h
          simp at h
    · rw [if_pos hlen] at h
      simp at h

/-- A single in-place character change at a position of a 4-char segment
yields a different segment. -/
theorem set_ne_of_getD (s : Str) (i : Nat) (c : Char) (hi : i < s.length)
    (hne : c ≠ s.getD i 'A') : s.set i c ≠ s := by
  intro heq
  apply hne
  have h1 : (s.set i c).getD i 'A' = s.getD i 'A' := by rw [heq]
  rw [List.getD_eq_getElem (s.set i c) 'A' (by simpa using hi)] at h1
  rw [List.getElem_set_self] at h1
  exact h1

/-- C4 counterexample: the key `AAAA-AAAA-AAAA-AAAA` has both a wrong
product code (`AAAA`, not `VC01`) and a wrong checksum segment, yet the
4-segment codec reports the product-mismatch error, not the checksum error
— the product code is verified before the checksum there. -/
theorem vcomm_product_error_before_checksum_counterexample :
    Vcomm.validateLicenseKey (("AAAA-AAAA-AAAA-AAAA").data) =
      ⟨false, none, some (("License key bukan untuk aplikasi ini").data)⟩ ∧
    ("AAAA").data ≠ Vcomm.generateChecksum (("AAAAAAAAAAAA").data) := by
  constructor
  · decide
  · decide

/-- C4 (amended): the 6-segment codec recomputes and compares the checksum
before extracting the product code, so any well-formed key with a wrong
checksum reports the checksum (`INVALID_KEY`) error regardless of its
product code; the 4-segment codec does the opposite — it validates the
product code first, so any well-formed key with a wrong product code
reports the product-mismatch error regardless of its checksum. -/
theorem codec_check_order (s1 s2 s3 s4 s5 s6 t1 t2 t3 t4 : Str)
    (h6 : ∀ s ∈ [s1, s2, s3, s4, s5, s6], s.length = 4 ∧ ∀ x ∈ s, x ∈ CHARSET)
    (h4 : ∀ s ∈ [t1, t2, t3, t4], s.length = 4 ∧ ∀ x ∈ s, x ∈ CHARSET)
    (hbad6 : s6 ≠ Eyesee.generateChecksum (s1 ++ s2 ++ s3 ++ s4 ++ s5))
    (hbad4 : (t1.drop 2).take 2 ++ t2.take 2 ≠ Vcomm.PRODUCT_CODE) :
    (Eyesee.validateLicenseKey (mkKey6 s1 s2 s3 s4 s5 s6)).error =
      some (("License key tidak valid").data) ∧
    (Vcomm.validateLicenseKey (mkKey4 t1 t2 t3 t4)).error =
      some (("License key bukan untuk aplikasi ini").data) := by
  constructor
  · rw [eyesee_validate_canonical _ _ _ _ _ _ (fun s hs => (h6 s hs).2)]
    simp only [Eyesee.validateSegments, checkSegments_eq_none _ h6]
    rw [if_pos hbad6]
  · rw [vcomm_validate_canonical _ _ _ _ (fun s hs => (h4 s hs).2)]
    simp only [Vcomm.validateSegments, checkSegments_eq_none _ h4]
    rw [if_pos hbad4]

/-- Witness for C4 (amended) at concrete well-formed keys with a wrong
checksum (6-segment) and a wrong product code (4-segment). -/
theorem codec_check_order_witness :
    (Eyesee.validateLicenseKey (mkKey6 (("AAES").data) (("01AA").data)
        (("BBBB").data) (("CCCC").data) (("DDDD").data) (("AAAA").data))).error =
      some (("License key tidak valid").data) ∧
    (Vcomm.validateLicenseKey (mkKey4 (("AAAA").data) (("AAAA").data)
        (("AAAA").data) (("AAAA").data))).error =
      some (("License key bukan untuk aplikasi ini").data) :=
  codec_check_order (("AAES").data) (("01AA").data) (("BBBB").data)
    (("CCCC").data) (("DDDD").data) (("AAAA").data) (("AAAA").data)
    (("AAAA").data) (("AAAA").data) (("AAAA").data)
    (by decide) (by decide) (by decide) (by decide)

/-- C7: for every well-formed key accepted by validation, changing any
single character of the checksum segment to a different alphabet character
makes validation fail with the `INVALID_KEY` ("License key tidak valid")
checksum-mismatch error, in both the 6-segment and the 4-segment codec. -/
theorem checksum_flip_invalidates_key
    (s1 s2 s3 s4 s5 s6 t1 t2 t3 t4 : Str) (i j : Nat) (c d : Char)
    (h6 : ∀ s ∈ [s1, s2, s3, s4, s5, s6], ∀ x ∈ s, x ∈ CHARSET)
    (h4 : ∀ s ∈ [t1, t2, t3, t4], ∀ x ∈ s, x ∈ CHARSET)
    (hvalid6 : (Eyesee.validateLicenseKey (mkKey6 s1 s2 s3 s4 s5 s6)).valid = true)
    (hvalid4 : (Vcomm.validateLicenseKey (mkKey4 t1 t2 t3 t4)).valid = true)
    (hi : i < 4) (hci : c ∈ CHARSET) (hcne : c ≠ s6.getD i 'A')
    (hj : j < 4) (hdj : d ∈ CHARSET) (hdne : d ≠ t4.getD j 'A') :
    (Eyesee.validateLicenseKey (mkKey6 s1 s2 s3 s4 s5 (s6.set i c))).valid = false ∧
    (Eyesee.validateLicenseKey (mkKey6 s1 s2 s3 s4 s5 (s6.set i c))).error =
      some (("License key tidak valid").data) ∧
    (Vcomm.validateLicenseKey (mkKey4 t1 t2 t3 (t4.set j d))).valid = false ∧
    (Vcomm.validateLicenseKey (mkKey4 t1 t2 t3 (t4.set j d))).error =
      some (("License key tidak valid").data) := by
  -- facts extracted from the accepted 6-segment key
  rw [eyesee_validate_canonical s1 s2 s3 s4 s5 s6 h6] at hvalid6
  rcases hcs6 : Eyesee.checkSegments [s1, s2, s3, s4, s5, s6] with _ | e6
  case some => simp [Eyesee.validateSegments, hcs6] at hvalid6
  have hsum6 : s6 = Eyesee.generateChecksum (s1 ++ s2 ++ s3 ++ s4 ++ s5) := by
    by_contra hne
    simp only [Eyesee.validateSegments, hcs6] at hvalid6
    rw [if_pos hne] at hvalid6
    simp at hvalid6
  have hlens6 := checkSegments_none_length _ hcs6
  -- facts extracted from the accepted 4-segment key
  rw [vcomm_validate_canonical t1 t2 t3 t4 h4] at hvalid4
  rcases hcs4 : Eyesee.checkSegments [t1, t2, t3, t4] with _ | e4
  case some => simp [Vcomm.validateSegments, hcs4] at hvalid4
  have hprod4 : (t1.drop 2).take 2 ++ t2.take 2 = Vcomm.PRODUCT_CODE := by
    by_contra hne
    simp only [Vcomm.validateSegments, hcs4] at hvalid4
    rw [if_pos hne] at hvalid4
    simp at hvalid4
  have hsum4 : t4 = Vcomm.generateChecksum (t1 ++ t2 ++ t3) := by
    by_contra hne
    simp only [Vcomm.validateSegments, hcs4] at hvalid4
    rw [if_neg (fun hh => hh hprod4), if_pos hne] at hvalid4
    simp at hvalid4
  have hlens4 := checkSegments_none_length _ hcs4
  -- the altered 6-segment key
  have hset6 : ∀ x ∈ s6.set i c, x ∈ CHARSET := by
    intro x hx
    rcases List.mem_or_eq_of_mem_set hx with hmem | rfl
    · exact h6 s6 (by simp) x hmem
    · exact hci
  have h6' : ∀ s ∈ [s1, s2, s3, s4, s5, s6.set i c], ∀ x ∈ s, x ∈ CHARSET := by
    intro s hs
    simp only [List.mem_cons, List.not_mem_nil, or_false] at hs
    rcases hs with rfl | rfl | rfl | rfl | rfl | rfl
    · exact h6 _ (by simp)
    · exact h6 _ (by simp)
    · exact h6 _ (by simp)
    · exact h6 _ (by simp)
    · exact h6 _ (by simp)
    · exact hset6
  have hcs6' : Eyesee.checkSegments [s1, s2, s3, s4, s5, s6.set i c] = none := by
    apply checkSegments_eq_none
    intro s hs
    simp only [List.mem_cons, List.not_mem_nil, or_false] at hs
    rcases hs with rfl | rfl | rfl | rfl | rfl | rfl
    · exact ⟨hlens6 _ (by simp), fun x hx => h6 _ (by simp) x hx⟩
    · exact ⟨hlens6 _ (by simp), fun x hx => h6 _ (by simp) x hx⟩
    · exact ⟨hlens6 _ (by simp), fun x hx => h6 _ (by simp) x hx⟩
    · exact ⟨hlens6 _ (by simp), fun x hx => h6 _ (by simp) x hx⟩
    · exact ⟨hlens6 _ (by simp), fun x hx => h6 _ (by simp) x hx⟩
    · exact ⟨by rw [List.length_set]; exact hlens6 s6 (by simp), hset6⟩
  have hne6 : s6.set i c ≠ Eyesee.generateChecksum (s1 ++ s2 ++ s3 ++ s4 ++ s5) := by
    rw [← hsum6]
    exact set_ne_of_getD s6 i c (by rw [hlens6 s6 (by simp)]; exact hi) hcne
  -- the altered 4-segment key
  have hset4 : ∀ x ∈ t4.set j d, x ∈ CHARSET := by
    intro x hx
    rcases List.mem_or_eq_of_mem_set hx with hmem | rfl
    · exact h4 t4 (by simp) x hmem
    · exact hdj
  have h4' : ∀ s ∈ [t1, t2, t3, t4.set j d], ∀ x ∈ s, x ∈ CHARSET := by
    intro s hs
    simp only [List.mem_cons, List.not_mem_nil, or_false] at hs
    rcases hs with rfl | rfl | rfl | rfl
    · exact h4 _ (by simp)
    · exact h4 _ (by simp)
    · exact h4 _ (by simp)
    · exact hset4
  have hcs4' : Eyesee.checkSegments [t1, t2, t3, t4.set j d] = none := by
    apply checkSegments_eq_none
    intro s hs
    simp only [List.mem_cons, List.not_mem_nil, or_false] at hs
    rcases hs with rfl | rfl | rfl | rfl
    · exact ⟨hlens4 _ (by simp), fun x hx => h4 _ (by simp) x hx⟩
    · exact ⟨hlens4 _ (by simp), fun x hx => h4 _ (by simp) x hx⟩
    · exact ⟨hlens4 _ (by simp), fun x hx => h4 _ (by simp) x hx⟩
    · exact ⟨by rw [List.length_set]; exact hlens4 t4 (by simp), hset4⟩
  have hne4 : t4.set j d ≠ Vcomm.generateChecksum (t1 ++ t2 ++ t3) := by
    rw [← hsum4]
    exact set_ne_of_getD t4 j d (by rw [hlens4 t4 (by simp)]; exact hj) hdne
  -- conclude on both altered keys
  rw [eyesee_validate_canonical _ _ _ _ _ _ h6',
      vcomm_validate_canonical _ _ _ _ h4']
  simp only [Eyesee.validateSegments, Vcomm.validateSegments, hcs6', hcs4']
  rw [if_pos hne6, if_neg (fun hh => hh hprod4), if_pos hne4]
  exact ⟨rfl, rfl, rfl, rfl⟩

/-- Witness for C7 on two concrete accepted keys, flipping the first
checksum character to 'A' in each. -/
theorem checksum_flip_invalidates_key_witness :
    (Eyesee.validateLicenseKey (mkKey6 (("OJES").data) (("0112").data)
        (("ABV5").data) (("ABCD").data) (("1234").data)
        ((("BYEN").data).set 0 'A'))).valid = false ∧
    (Eyesee.validateLicenseKey (mkKey6 (("OJES").data) (("0112").data)
        (("ABV5").data) (("ABCD").data) (("1234").data)
        ((("BYEN").data).set 0 'A'))).error =
      some (("License key tidak valid").data) ∧
    (Vcomm.validateLicenseKey (mkKey4 (("AAVC").data) (("01AA").data)
        (("AAAA").data) ((("RBS3").data).set 0 'A'))).valid = false ∧
    (Vcomm.validateLicenseKey (mkKey4 (("AAVC").data) (("01AA").data)
        (("AAAA").data) ((("RBS3").data).set 0 'A'))).error =
      some (("License key tidak valid").data) :=
  checksum_flip_invalidates_key (("OJES").data) (("0112").data)
    (("ABV5").data) (("ABCD").data) (("1234").data) (("BYEN").data)
    (("AAVC").data) (("01AA").data) (("AAAA").data) (("RBS3").data)
    0 0 'A' 'A'
    (by decide) (by decide) (by decide) (by decide) (by decide) (by decide)
    (by decide) (by decide) (by decide) (by decide)

/-- Unfolding of the key generator when the hardware ID is long enough. -/
theorem eyesee_generate_eq (expiryMs : Int) (hw : Str) (r1 r2 : Nat)
    (hhw : ¬ hw.length < 8) :
    Eyesee.generateLicenseKey expiryMs hw r1 r2 = .ok (mkKey6
      (encodeBase36 (r1 : Int) 2 ++ Eyesee.PRODUCT_CODE.take 2)
      ((Eyesee.PRODUCT_CODE.drop 2).take 2 ++ encodeBase36 (r2 : Int) 2)
      (encodeBase36 (Int.fdiv expiryMs 864000000) 4)
      (((jsToUpper hw).take 8).take 4)
      ((((jsToUpper hw).take 8).drop 4).take 4)
      (Eyesee.generateChecksum
        ((encodeBase36 (r1 : Int) 2 ++ Eyesee.PRODUCT_CODE.take 2) ++
         ((Eyesee.PRODUCT_CODE.drop 2).take 2 ++ encodeBase36 (r2 : Int) 2) ++
         encodeBase36 (Int.fdiv expiryMs 864000000) 4 ++
         ((jsToUpper hw).take 8).take 4 ++
         (((jsToUpper hw).take 8).drop 4).take 4))) := by
  unfold Eyesee.generateLicenseKey
  rw [if_neg hhw]

/-- C3 counterexample: the expiry date 0 (the epoch, a perfectly valid
`Date` accepted by `generateLicenseKey`) together with the 8-character
fingerprint `ABCDEFGH` produces a key that `validateLicenseKey` rejects
(`valid = false`, sanity-bound error), refuting the claim that validation
succeeds for every accepted expiry date. -/
theorem eyesee_roundtrip_out_of_range_counterexample :
    (match Eyesee.generateLicenseKey 0 (("ABCDEFGH").data) 0 0 with
      | .ok k => some (Eyesee.validateLicenseKey k)
      | .error _ => none) =
      some ⟨false, none, none,
            some (("Tanggal expired tidak valid dalam key").data)⟩ := by
  decide

/-- C3 (amended): for every expiry date whose 10-day-quantised decoding
falls inside the codec's sanity window [2020-01-01, 2100-01-01], every
hardware fingerprint of at least 8 characters whose uppercased 8-char
\x66ragment is drawn from the key alphabet, and every pair of random draws,
`validateLicenseKey (generateLicenseKey ...)` succeeds and round-trips the
embedded product code (validation requires it to equal `ES01`), the
fingerprint fragment, and the expiry rounded down to a multiple of ten
days (864 000 000 ms). -/
theorem eyesee_generate_validate_roundtrip (expiryMs : Int) (hw : Str)
    (r1 r2 : Nat) (hhw : 8 ≤ hw.length)
    (hchars : ∀ x ∈ (jsToUpper hw).take 8, x ∈ CHARSET)
    (hlo : Eyesee.minDateMs ≤ Int.fdiv expiryMs 864000000 * 864000000)
    (hhi : Int.fdiv expiryMs 864000000 * 864000000 ≤ Eyesee.maxDateMs) :
    ∃ key, Eyesee.generateLicenseKey expiryMs hw r1 r2 = Except.ok key ∧
      Eyesee.validateLicenseKey key =
        ⟨true, some (Int.fdiv expiryMs 864000000 * 864000000),
         some ((jsToUpper hw).take 8), none⟩ := by
  refine ⟨_, eyesee_generate_eq expiryMs hw r1 r2 (by omega), ?_⟩
  have hw8len : ((jsToUpper hw).take 8).length = 8 := by
    simp [jsToUpper]
    omega
  have hPC : ∀ x ∈ Eyesee.PRODUCT_CODE, x ∈ CHARSET := by decide
  have hseg1 : ∀ x ∈ encodeBase36 (r1 : Int) 2 ++ Eyesee.PRODUCT_CODE.take 2,
      x ∈ CHARSET := by
    intro x hx
    rcases List.mem_append.mp hx with h | h
    · exact mem_encodeBase36 _ _ x h
    · exact hPC x (List.mem_of_mem_take h)
  have hseg2 : ∀ x ∈ (Eyesee.PRODUCT_CODE.drop 2).take 2 ++
      encodeBase36 (r2 : Int) 2, x ∈ CHARSET := by
    intro x hx
    rcases List.mem_append.mp hx with h | h
    · exact hPC x (List.mem_of_mem_drop (List.mem_of_mem_take h))
    · exact mem_encodeBase36 _ _ x h
  have hseg4 : ∀ x ∈ ((jsToUpper hw).take 8).take 4, x ∈ CHARSET :=
    fun x hx => hchars x (List.mem_of_mem_take hx)
  have hseg5 : ∀ x ∈ (((jsToUpper hw).take 8).drop 4).take 4, x ∈ CHARSET :=
    fun x hx => hchars x (List.mem_of_mem_drop (List.mem_of_mem_take hx))
  have h6 : ∀ s ∈ [encodeBase36 (r1 : Int) 2 ++ Eyesee.PRODUCT_CODE.take 2,
      (Eyesee.PRODUCT_CODE.drop 2).take 2 ++ encodeBase36 (r2 : Int) 2,
      encodeBase36 (Int.fdiv expiryMs 864000000) 4,
      ((jsToUpper hw).take 8).take 4,
      (((jsToUpper hw).take 8).drop 4).take 4,
      Eyesee.generateChecksum
        ((encodeBase36 (r1 : Int) 2 ++ Eyesee.PRODUCT_CODE.take 2) ++
         ((Eyesee.PRODUCT_CODE.drop 2).take 2 ++ encodeBase36 (r2 : Int) 2) ++
         encodeBase36 (Int.fdiv expiryMs 864000000) 4 ++
         ((jsToUpper hw).take 8).take 4 ++
         (((jsToUpper hw).take 8).drop 4).take 4)],
      ∀ x ∈ s, x ∈ CHARSET := by
    intro s hs
    simp only [List.mem_cons, List.not_mem_nil, or_false] at hs
    rcases hs with rfl | rfl | rfl | rfl | rfl | rfl
    · exact hseg1
    · exact hseg2
    · exact mem_encodeBase36 _ _
    · exact hseg4
    · exact hseg5
    · exact mem_generateChecksumWith _ _
  rw [eyesee_validate_canonical _ _ _ _ _ _ h6]
  have hcs : Eyesee.checkSegments [encodeBase36 (r1 : Int) 2 ++
      Eyesee.PRODUCT_CODE.take 2,
      (Eyesee.PRODUCT_CODE.drop 2).take 2 ++ encodeBase36 (r2 : Int) 2,
      encodeBase36 (Int.fdiv expiryMs 864000000) 4,
      ((jsToUpper hw).take 8).take 4,
      (((jsToUpper hw).take 8).drop 4).take 4,
      Eyesee.generateChecksum
        ((encodeBase36 (r1 : Int) 2 ++ Eyesee.PRODUCT_CODE.take 2) ++
         ((Eyesee.PRODUCT_CODE.drop 2).take 2 ++ encodeBase36 (r2 : Int) 2) ++
         encodeBase36 (Int.fdiv expiryMs 864000000) 4 ++
         ((jsToUpper hw).take 8).take 4 ++
         (((jsToUpper hw).take 8).drop 4).take 4)] = none := by
    apply checkSegments_eq_none
    intro s hs
    simp only [List.mem_cons, List.not_mem_nil, or_false] at hs
    rcases hs with rfl | rfl | rfl | rfl | rfl | rfl
    · exact ⟨by simp [length_encodeBase36, Eyesee.PRODUCT_CODE], hseg1⟩
    · exact ⟨by simp [length_encodeBase36, Eyesee.PRODUCT_CODE], hseg2⟩
    · exact ⟨length_encodeBase36 _ 4, mem_encodeBase36 _ _⟩
    · exact ⟨by simp [List.length_take, hw8len], hseg4⟩
    · exact ⟨by simp [List.length_take, List.length_drop, hw8len], hseg5⟩
    · exact ⟨length_generateChecksumWith _ _, mem_generateChecksumWith _ _⟩
  simp only [Eyesee.validateSegments, hcs]
  rw [if_neg (fun hh => hh rfl)]
  have hprodeq : ((encodeBase36 (r1 : Int) 2 ++
      Eyesee.PRODUCT_CODE.take 2).drop 2).take 2 ++
      ((Eyesee.PRODUCT_CODE.drop 2).take 2 ++
        encodeBase36 (r2 : Int) 2).take 2 = Eyesee.PRODUCT_CODE := by
    rw [List.drop_left' (length_encodeBase36 (r1 : Int) 2),
        List.take_left' (by decide :
          ((Eyesee.PRODUCT_CODE.drop 2).take 2).length = 2)]
    decide
  rw [if_neg (fun hh => hh hprodeq)]
  have hd0 : 0 ≤ Int.fdiv expiryMs 864000000 := by
    by_contra hneg
    have : Int.fdiv expiryMs 864000000 ≤ -1 := by omega
    have : Int.fdiv expiryMs 864000000 * 864000000 ≤ -864000000 := by nlinarith
    have := hlo
    simp [Eyesee.minDateMs] at this
    omega
  have hdlt : Int.fdiv expiryMs 864000000 < 36 ^ 4 := by
    by_contra hbig
    have h1 : (1679616 : Int) ≤ Int.fdiv expiryMs 864000000 := by
      simpa using not_lt.mp hbig
    have : (1679616 : Int) * 864000000 ≤
        Int.fdiv expiryMs 864000000 * 864000000 := by nlinarith
    have := hhi
    simp [Eyesee.maxDateMs] at this
    omega
  rw [decode_encodeBase36 _ hd0 hdlt]
  rw [if_neg (by
    intro hh
    rcases hh with hh | hh
    · exact absurd hlo (by omega)
    · exact absurd hhi (by omega))]
  have htd : (((jsToUpper hw).take 8).drop 4).take 4 =
      ((jsToUpper hw).take 8).drop 4 :=
    List.take_of_length_le (by simp [hw8len])
  rw [htd, List.take_append_drop]

/-- Witness for C3 (amended) at a concrete expiry (epoch ms 1.8e12, whose
quantisation 1 799 712 000 000 lies inside the sanity window), the
fingerprint `ABCD1234` and fixed random draws. -/
theorem eyesee_generate_validate_roundtrip_witness :
    ∃ key, Eyesee.generateLicenseKey 1800000000000 (("ABCD1234").data)
        513 1000 = Except.ok key ∧
      Eyesee.validateLicenseKey key =
        ⟨true, some (Int.fdiv 1800000000000 864000000 * 864000000),
         some ((jsToUpper (("ABCD1234").data)).take 8), none⟩ :=
  eyesee_generate_validate_roundtrip 1800000000000 (("ABCD1234").data)
    513 1000 (by decide) (by decide) (by decide) (by decide)
